import Mathlib

/-!
Verification of `src/lambda/lambda.py` (a SageMaker-invoking AWS Lambda
handler) against its natural-language specification.

The Python module, at import time, reads the environment variable
`ENDPOINT_NAME` and builds a SageMaker runtime client.  Its single function
`lambda_handler(event, context)`:
  1. prints `"Received event: " + json.dumps(event, indent=2)`;
  2. computes `data = json.loads(json.dumps(event))['data']`;
  3. coerces `data` to `np.array(data, dtype=np.float32)`;
  4. serializes `{"inputs_input": data.tolist()}` with `json.dumps`;
  5. invokes the endpoint with content type `application/json` and that body;
  6. parses the response body with `json.loads` and returns
     `result['outputs']['activation_5']['floatVal']`.

The embedding below models Python/JSON values (`PyVal`), Python's
`json.dumps` (compact and `indent=2` forms, `ensure_ascii` behaviour),
`json.loads` (a fuelled recursive-descent parser), NumPy's float32 coercion
(IEEE-754 binary32 round-to-nearest-even over exact rationals), and the
handler itself as a pure function that also records its observable effects:
the log lines printed and the outbound endpoint invocations made.
-/

attribute [local semireducible] Rat.mul Rat.add Rat.inv Rat.sub Rat.ofScientific

set_option maxRecDepth 100000

namespace SageLambda

/-- A Python float value as produced by `json.loads`, `np.float32(...)` and
float arithmetic in this program: a finite value (modelled as the exact
rational it denotes — every IEEE double is a rational), an infinity, or NaN.
Structural equality of the model compares NaN equal to itself; the handler
never compares floats, it only moves them around, so this does not affect
any modelled behaviour. -/
inductive PyFloat where
  | finite (q : ℚ)
  | inf (neg : Bool)
  | nan
  deriving DecidableEq, Repr

/-- A Python value of the shapes this program can encounter: JSON-compatible
values (None, bool, int, float, str, list, dict with string keys — events
delivered to a Lambda handler and values returned by `json.loads` are
exactly of this shape) plus `obj`, an opaque non-JSON-serializable Python
object (e.g. a set or a custom class instance), used to model events on
which `json.dumps` raises `TypeError`.  Dicts are association lists with
(as in Python) distinct keys; lookup takes the first binding. -/
inductive PyVal where
  | null
  | bool (b : Bool)
  | int (n : ℤ)
  | float (f : PyFloat)
  | str (s : String)
  | list (xs : List PyVal)
  | dict (kvs : List (String × PyVal))
  | obj (id : ℕ)
  deriving Repr

/-- First-match association-list lookup, the model of Python dict lookup
(dict keys are unique, so first-match is exact). -/
def lookupAssoc (kvs : List (String × PyVal)) (k : String) : Option PyVal :=
  match kvs with
  | [] => Option.none
  | (k2, v) :: rest => if k2 = k then some v else lookupAssoc rest k

/-- The errors this program can raise: Python `TypeError`, `KeyError k`,
`ValueError` (NumPy rejecting non-numeric data), a JSON decode error from
`json.loads`, and a service-invocation error raised by
`runtime.invoke_endpoint` (endpoint unreachable, non-success status, ...). -/
inductive PyErr where
  | typeError
  | keyError (k : String)
  | valueError
  | jsonDecodeError
  | serviceError (msg : String)
  deriving DecidableEq, Repr

/-! ### IEEE-754 binary32 rounding over exact rationals

`np.array(data, dtype=np.float32)` rounds each element to the nearest
binary32 value (ties to even), overflowing to infinity.  `.tolist()` then
widens the results back to Python floats, exactly (binary32 values are a
subset of binary64). -/

/-- `log2F fuel n` is `⌊log₂ n⌋` for `1 ≤ n`, provided `fuel` bounds the
number of halvings (``fuel ≥ n`` always suffices).  Written with explicit
fuel so that it is structurally recursive. -/
def log2F : ℕ → ℕ → ℕ
  | 0, _ => 0
  | fuel + 1, n => if n ≤ 1 then 0 else 1 + log2F fuel (n / 2)

/-- `⌊log₂ n⌋` for `1 ≤ n` (and `0` at `0`). -/
def natLog2 (n : ℕ) : ℕ := log2F n n

/-- For `q > 0`, the integer `e` with `2^e ≤ q < 2^(e+1)`. -/
def ratLog2 (q : ℚ) : ℤ :=
  if 1 ≤ q then (natLog2 q.floor.toNat : ℤ)
  else
    let e2 := natLog2 (1 / q).floor.toNat
    if q = 1 / 2 ^ e2 then -(e2 : ℤ) else -(e2 + 1 : ℤ)

/-- Round a rational to the nearest integer, ties to even. -/
def rdNearestEven (r : ℚ) : ℤ :=
  let fl := r.floor
  let fr := r - fl
  if fr < 1 / 2 then fl
  else if 1 / 2 < fr then fl + 1
  else if fl % 2 = 0 then fl else fl + 1

/-- IEEE-754 binary32 rounding (round to nearest, ties to even) of an exact
rational: the model of `np.float32(q)` for finite `q`.  Normal numbers use a
24-bit significand (unit in the last place `2^(e-23)`), subnormals bottom
out at ulp `2^(-149)`, and a rounded magnitude of `2^128` or more overflows
to the correspondingly signed infinity. -/
def roundF32 (q : ℚ) : PyFloat :=
  if q = 0 then .finite 0
  else
    let a := |q|
    let e := ratLog2 a
    let k : ℤ := max (e - 23) (-149)
    let n := rdNearestEven (a / 2 ^ k)
    let v : ℚ := (n : ℚ) * 2 ^ k
    if 2 ^ (128 : ℤ) ≤ v then .inf (q < 0)
    else .finite (if q < 0 then -v else v)

/-- Elementwise coercion performed by `np.array(_, dtype=np.float32)` on one
element, composed with the exact widening of `.tolist()`: ints, floats and
bools coerce by binary32 rounding (`True ↦ 1.0`, `False ↦ 0.0`, `None ↦
nan`, infinities and NaN pass through).  Any other element (strings that
NumPy would try to parse, nested lists that would build a multidimensional
array, objects) is out of the flat numeric shape the spec gives to `data`
and is modelled as a conversion failure. -/
def pyF32 : PyVal → Option PyFloat
  | .int n => some (roundF32 (n : ℚ))
  | .float (.finite q) => some (roundF32 q)
  | .float (.inf b) => some (.inf b)
  | .float .nan => some .nan
  | .bool b => some (roundF32 (if b then 1 else 0))
  | .null => some .nan
  | _ => Option.none

/-- `np.array(xs, dtype=np.float32).tolist()` on a flat list: elementwise
`pyF32`, failing (NumPy `ValueError`) as soon as one element is not
numeric. -/
def npMap : List PyVal → Option (List PyFloat)
  | [] => some []
  | x :: xs =>
    match pyF32 x, npMap xs with
    | some f, some fs => some (f :: fs)
    | _, _ => Option.none

/-- `np.array(v, dtype=np.float32).tolist()` for the value found under
`data`: defined on flat numeric sequences (the shape the spec assigns to
`data`); anything else is modelled as a conversion failure. -/
def npFloat32List : PyVal → Option (List PyFloat)
  | .list xs => npMap xs
  | _ => Option.none

/-! ### `json.dumps`

Python's serializer with its default options as used by the handler:
`ensure_ascii=True` (non-ASCII characters become `\uXXXX` escapes), default
separators (`", "`/`": "` when `indent` is `None`, `","`/`": "` with
newline-and-indent item layout when `indent=2`), and non-JSON-serializable
objects raising `TypeError`, modelled as `Option.none`.  Finite floats are
printed as their exact decimal expansion with at least one fractional
digit; Python prints the shortest decimal that round-trips, and the two
agree on every value this development evaluates (all decimal fractions met
here are exact).  Infinities and NaN print as `Infinity` / `-Infinity` /
`NaN`, as Python's `json.dumps` does by default (`allow_nan=True`). -/

/-- The character `{` (written via its code point to keep brace characters
out of string and character literals). -/
def lcurly : Char := Char.ofNat 123

/-- The character `}`. -/
def rcurly : Char := Char.ofNat 125

/-- Lower-case hexadecimal digit for `n < 16`. -/
def hexDigit (n : ℕ) : Char :=
  if n < 10 then Char.ofNat (48 + n) else Char.ofNat (87 + n)

/-- Four-digit lower-case hexadecimal rendering of `n < 65536`. -/
def hex4 (n : ℕ) : String :=
  String.mk [hexDigit (n / 4096 % 16), hexDigit (n / 256 % 16),
             hexDigit (n / 16 % 16), hexDigit (n % 16)]

/-- The `\uXXXX` escape (with a UTF-16 surrogate pair above `U+FFFF`) that
`json.dumps` emits for a non-ASCII or control character under
`ensure_ascii=True`. -/
def uEscape (c : Char) : String :=
  let n := c.toNat
  if n < 65536 then "\\u" ++ hex4 n
  else
    let m := n - 65536
    "\\u" ++ hex4 (55296 + m / 1024) ++ "\\u" ++ hex4 (56320 + m % 1024)

/-- Serialization of one character inside a JSON string literal. -/
def escChar (c : Char) : String :=
  if c = '"' then "\\\""
  else if c = '\\' then "\\\\"
  else if c = '\n' then "\\n"
  else if c = '\t' then "\\t"
  else if c = '\r' then "\\r"
  else if c.toNat = 8 then "\\b"
  else if c.toNat = 12 then "\\f"
  else if c.toNat < 32 ∨ 126 < c.toNat then uEscape c
  else String.mk [c]

/-- A JSON string literal: quote, escaped characters, quote. -/
def quoteJson (s : String) : String :=
  "\"" ++ String.join (s.toList.map escChar) ++ "\""

/-- Join strings with a separator. -/
def joinSep (sep : String) : List String → String
  | [] => ""
  | [x] => x
  | x :: y :: rest => x ++ sep ++ joinSep sep (y :: rest)

/-- `n` spaces. -/
def spaces (n : ℕ) : String := String.mk (List.replicate n ' ')

/-- Decimal expansion of the fractional part `0 ≤ r < 1`, digit by digit,
stopping when the remainder reaches zero (which happens within the fuel for
every value met here: every float this program moves has a denominator
`2^a * 5^b`). -/
def fracDigits : ℕ → ℚ → String
  | 0, _ => ""
  | fuel + 1, r =>
    if r = 0 then ""
    else
      let r10 := r * 10
      let d := r10.floor
      toString d ++ fracDigits fuel (r10 - (d : ℚ))

/-- Python `repr` of a finite float whose exact value is `q`: sign, integer
part, a dot, and the fractional digits (`".0"` when the value is
integral). -/
def printRatFloat (q : ℚ) : String :=
  let sgn := if q < 0 then "-" else ""
  let a := |q|
  let ip := a.floor
  let fr := a - (ip : ℚ)
  if fr = 0 then sgn ++ toString ip ++ ".0"
  else sgn ++ toString ip ++ "." ++ fracDigits 1200 fr

/-- Serialization of a Python float by `json.dumps` (which uses `repr`). -/
def printPyFloat : PyFloat → String
  | .finite q => printRatFloat q
  | .inf b => if b then "-Infinity" else "Infinity"
  | .nan => "NaN"

/-- The indentation handed to the children of a container: unchanged `none`
in compact mode, two more columns under `indent=2`. -/
def childInd : Option ℕ → Option ℕ
  | Option.none => Option.none
  | some l => some (l + 2)

/-- Wrap already-rendered items in brackets: compact mode joins with
`", "`; `indent=2` mode puts each item on its own line at `l + 2` columns
and the closing bracket at `l` columns, except that an empty container
stays on one line, exactly as Python does. -/
def wrapItems (ind : Option ℕ) (openB closeB : String) (parts : List String) : String :=
  match ind with
  | Option.none => openB ++ joinSep ", " parts ++ closeB
  | some l =>
    match parts with
    | [] => openB ++ closeB
    | _ =>
      openB ++ "\n" ++ joinSep ",\n" (parts.map (fun p => spaces (l + 2) ++ p)) ++
        "\n" ++ spaces l ++ closeB

mutual

/-- `json.dumps` of one value.  `ind = none` is compact mode;
`ind = some l` renders under `indent=2` with the value's items at column
`l + 2`.  `Option.none` is Python's `TypeError: Object of type ... is not
JSON serializable`, raised exactly on values containing `obj`. -/
def dumpV (ind : Option ℕ) : PyVal → Option String
  | .null => some "null"
  | .bool b => some (if b then "true" else "false")
  | .int n => some (toString n)
  | .float f => some (printPyFloat f)
  | .str s => some (quoteJson s)
  | .list xs => do
    let parts ← dumpL (childInd ind) xs
    some (wrapItems ind "[" "]" parts)
  | .dict kvs => do
    let parts ← dumpD (childInd ind) kvs
    some (wrapItems ind (String.mk [lcurly]) (String.mk [rcurly]) parts)
  | .obj _ => Option.none

/-- Render each element of a JSON array. -/
def dumpL (ind : Option ℕ) : List PyVal → Option (List String)
  | [] => some []
  | x :: xs => do
    let s ← dumpV ind x
    let rest ← dumpL ind xs
    some (s :: rest)

/-- Render each `"key": value` member of a JSON object (Python's default
key separator is `": "` in both modes). -/
def dumpD (ind : Option ℕ) : List (String × PyVal) → Option (List String)
  | [] => some []
  | (k, v) :: kvs => do
    let s ← dumpV ind v
    let rest ← dumpD ind kvs
    some ((quoteJson k ++ ": " ++ s) :: rest)

end

/-- `json.dumps(v)` — compact mode, Python's default separators. -/
def dumps (v : PyVal) : Option String := dumpV Option.none v

/-- `json.dumps(v, indent=2)` — the form the handler prints. -/
def dumpsIndent2 (v : PyVal) : Option String := dumpV (some 0) v

/-! ### `json.loads`

A recursive-descent parser for the JSON the handler's collaborators can
send back, with Python's default extensions (`Infinity`, `-Infinity`,
`NaN`), exponent and fraction notation on numbers, and the standard string
escapes.  A number with a fraction or exponent becomes a float denoting
exactly the rational its decimal spelling denotes; a bare integer becomes a
Python int.  Failure (`Option.none`) is Python's `json.JSONDecodeError`.
Recursion is by explicit fuel, which `loads` supplies amply. -/

/-- Skip JSON whitespace. -/
def skipWs : List Char → List Char
  | [] => []
  | c :: cs =>
    if c = ' ' ∨ c = '\n' ∨ c = '\t' ∨ c = '\r' then skipWs cs else c :: cs

/-- Value of a hexadecimal digit. -/
def hexVal (c : Char) : Option ℕ :=
  if '0' ≤ c ∧ c ≤ '9' then some (c.toNat - 48)
  else if 'a' ≤ c ∧ c ≤ 'f' then some (c.toNat - 87)
  else if 'A' ≤ c ∧ c ≤ 'F' then some (c.toNat - 55)
  else Option.none

/-- Read exactly four hexadecimal digits. -/
def parseHex4 : List Char → Option (ℕ × List Char)
  | a :: b :: c :: d :: rest => do
    let va ← hexVal a
    let vb ← hexVal b
    let vc ← hexVal c
    let vd ← hexVal d
    some (va * 4096 + vb * 256 + vc * 16 + vd, rest)
  | _ => Option.none

/-- The single-character JSON string escapes. -/
def escMap (c : Char) : Option Char :=
  if c = '"' then some '"'
  else if c = '\\' then some '\\'
  else if c = '/' then some '/'
  else if c = 'n' then some '\n'
  else if c = 't' then some '\t'
  else if c = 'r' then some '\r'
  else if c = 'b' then some (Char.ofNat 8)
  else if c = 'f' then some (Char.ofNat 12)
  else Option.none

/-- Read the characters of a string literal after the opening quote, up to
and consuming the closing quote. -/
def strChars : ℕ → List Char → Option (List Char × List Char)
  | 0, _ => Option.none
  | fuel + 1, cs =>
    match cs with
    | [] => Option.none
    | c :: rest =>
      if c = '"' then some ([], rest)
      else if c = '\\' then
        match rest with
        | [] => Option.none
        | e :: rest2 =>
          if e = 'u' then do
            let (n, rest3) ← parseHex4 rest2
            let (tl, rest4) ← strChars fuel rest3
            some (Char.ofNat n :: tl, rest4)
          else do
            let ec ← escMap e
            let (tl, rest3) ← strChars fuel rest2
            some (ec :: tl, rest3)
      else do
        let (tl, rest2) ← strChars fuel rest
        some (c :: tl, rest2)

/-- Longest leading run of decimal digits. -/
def takeDigits : List Char → List Char × List Char
  | [] => ([], [])
  | c :: cs =>
    if c.isDigit then
      let (ds, rest) := takeDigits cs
      (c :: ds, rest)
    else ([], c :: cs)

/-- Numeric value of a digit run. -/
def digitsToNat (ds : List Char) : ℕ :=
  ds.foldl (fun a c => a * 10 + (c.toNat - 48)) 0

/-- Consume an expected literal tail, e.g. `rue` after `t`. -/
def dropLit : List Char → List Char → Option (List Char)
  | [], cs => some cs
  | l :: ls, c :: cs => if c = l then dropLit ls cs else Option.none
  | _ :: _, [] => Option.none

/-- Exponent part after `e`/`E`: optional sign, then digits. -/
def parseExp (cs : List Char) : Option (ℤ × List Char) :=
  let (esgn, cs1) :=
    match cs with
    | '+' :: t => (false, t)
    | '-' :: t => (true, t)
    | _ => (false, cs)
  let (eds, cs2) := takeDigits cs1
  match eds with
  | [] => Option.none
  | _ =>
    some (if esgn then -(digitsToNat eds : ℤ) else (digitsToNat eds : ℤ), cs2)

/-- The float denoted exactly by `sign, integer digits, fraction digits,
decimal exponent`. -/
def mkFloat (neg : Bool) (ip : ℕ) (fds : List Char) (z : ℤ) : PyVal :=
  let mag : ℚ :=
    ((ip : ℚ) + (digitsToNat fds : ℚ) / 10 ^ fds.length) * 10 ^ z
  .float (.finite (if neg then -mag else mag))

/-- A JSON number: `int` when it is a bare integer, `float` as soon as a
fraction or exponent appears, as Python's `json.loads` distinguishes. -/
def parseNum (cs : List Char) : Option (PyVal × List Char) :=
  let (neg, cs1) :=
    match cs with
    | '-' :: t => (true, t)
    | _ => (false, cs)
  let (ds, cs2) := takeDigits cs1
  match ds with
  | [] => Option.none
  | _ =>
    let ip := digitsToNat ds
    match cs2 with
    | '.' :: t =>
      let (fds, cs3) := takeDigits t
      match fds with
      | [] => Option.none
      | _ =>
        match cs3 with
        | 'e' :: t2 => do
          let (z, cs4) ← parseExp t2
          some (mkFloat neg ip fds z, cs4)
        | 'E' :: t2 => do
          let (z, cs4) ← parseExp t2
          some (mkFloat neg ip fds z, cs4)
        | _ => some (mkFloat neg ip fds 0, cs3)
    | 'e' :: t2 => do
      let (z, cs4) ← parseExp t2
      some (mkFloat neg ip [] z, cs4)
    | 'E' :: t2 => do
      let (z, cs4) ← parseExp t2
      some (mkFloat neg ip [] z, cs4)
    | _ => some (.int (if neg then -(ip : ℤ) else (ip : ℤ)), cs2)

mutual

/-- One JSON value, leading whitespace allowed. -/
def parseVal : ℕ → List Char → Option (PyVal × List Char)
  | 0, _ => Option.none
  | fuel + 1, cs =>
    match skipWs cs with
    | [] => Option.none
    | c :: rest =>
      if c = lcurly then do
        let (ms, cs2) ← parseMembers fuel rest
        some (.dict ms, cs2)
      else if c = '[' then do
        let (vs, cs2) ← parseElems fuel rest
        some (.list vs, cs2)
      else if c = '"' then do
        let (scs, cs2) ← strChars (rest.length + 1) rest
        some (.str (String.mk scs), cs2)
      else if c = 't' then do
        let cs2 ← dropLit "rue".toList rest
        some (.bool true, cs2)
      else if c = 'f' then do
        let cs2 ← dropLit "alse".toList rest
        some (.bool false, cs2)
      else if c = 'n' then do
        let cs2 ← dropLit "ull".toList rest
        some (.null, cs2)
      else if c = 'N' then do
        let cs2 ← dropLit "aN".toList rest
        some (.float .nan, cs2)
      else if c = 'I' then do
        let cs2 ← dropLit "nfinity".toList rest
        some (.float (.inf false), cs2)
      else if c = '-' then
        match rest with
        | 'I' :: rest2 => do
          let cs2 ← dropLit "nfinity".toList rest2
          some (.float (.inf true), cs2)
        | _ => parseNum (c :: rest)
      else parseNum (c :: rest)

/-- Array contents after `[`: empty, or elements. -/
def parseElems : ℕ → List Char → Option (List PyVal × List Char)
  | 0, _ => Option.none
  | fuel + 1, cs =>
    match skipWs cs with
    | [] => Option.none
    | c :: rest =>
      if c = ']' then some ([], rest)
      else parseElems1 fuel (c :: rest)

/-- One or more comma-separated array elements, then `]`. -/
def parseElems1 : ℕ → List Char → Option (List PyVal × List Char)
  | 0, _ => Option.none
  | fuel + 1, cs => do
    let (v, cs2) ← parseVal fuel cs
    match skipWs cs2 with
    | ',' :: cs3 => do
      let (vs, cs4) ← parseElems1 fuel cs3
      some (v :: vs, cs4)
    | c :: cs3 =>
      if c = ']' then some ([v], cs3) else Option.none
    | [] => Option.none

/-- Object contents after the opening brace: empty, or members. -/
def parseMembers : ℕ → List Char → Option (List (String × PyVal) × List Char)
  | 0, _ => Option.none
  | fuel + 1, cs =>
    match skipWs cs with
    | [] => Option.none
    | c :: rest =>
      if c = rcurly then some ([], rest)
      else parseMembers1 fuel (c :: rest)

/-- One or more `"key": value` members, then the closing brace. -/
def parseMembers1 : ℕ → List Char → Option (List (String × PyVal) × List Char)
  | 0, _ => Option.none
  | fuel + 1, cs =>
    match skipWs cs with
    | '"' :: cs2 => do
      let (kcs, cs3) ← strChars (cs2.length + 1) cs2
      match skipWs cs3 with
      | ':' :: cs4 => do
        let (v, cs5) ← parseVal fuel cs4
        match skipWs cs5 with
        | ',' :: cs6 => do
          let (ms, cs7) ← parseMembers1 fuel cs6
          some ((String.mk kcs, v) :: ms, cs7)
        | c :: cs6 =>
          if c = rcurly then some ([(String.mk kcs, v)], cs6) else Option.none
        | [] => Option.none
      | _ => Option.none
    | _ => Option.none

end

/-- `json.loads(s)`: parse one JSON value and insist nothing but whitespace
follows.  The fuel is an upper bound on the recursion the input can force,
far above what its length admits. -/
def loads (s : String) : Option PyVal :=
  match parseVal (2 * s.length + 8) s.toList with
  | some (v, rest) =>
    match skipWs rest with
    | [] => some v
    | _ => Option.none
  | Option.none => Option.none

/-! ### The handler

`lambda_handler` is modelled as a pure function of the module-level
configuration (`ENDPOINT_NAME`), the behaviour of the external inference
service (what `runtime.invoke_endpoint` does), and the event.  It returns
the log lines printed, the outbound invocations attempted, and the result
(a value, or the first uncaught exception — the source catches nothing, so
every failure ends the run where it occurs). -/

/-- Python subscription `v["k"]`: a `KeyError` on a dict without the key, a
`TypeError` on any non-dict (a list, a string, a number… cannot be indexed
by a string). -/
def getItem (v : PyVal) (k : String) : Except PyErr PyVal :=
  match v with
  | .dict kvs =>
    match lookupAssoc kvs k with
    | some x => .ok x
    | Option.none => .error (.keyError k)
  | _ => .error .typeError

/-- One outbound call to `runtime.invoke_endpoint`, as observed on the
wire: the `EndpointName`, `ContentType` and `Body` arguments of line 20 of
the source. -/
structure Invocation where
  endpoint : String
  contentType : String
  body : String
  deriving DecidableEq, Repr

/-- Everything observable about one handler run: the log lines printed (in
order), the outbound invocations made (in order), and the returned value or
the uncaught exception. -/
structure TraceResult where
  logs : List String
  calls : List Invocation
  result : Except PyErr PyVal

/-- Lines 24–25 of the source applied to an already-parsed response:
`result['outputs']['activation_5']['floatVal']`. -/
def extractPath (r : PyVal) : Except PyErr PyVal := do
  let o ← getItem r "outputs"
  let a ← getItem o "activation_5"
  getItem a "floatVal"

/-- Lines 24–25 of the source applied to the outcome of the service call: a
service error propagates; otherwise the body is parsed by `json.loads`
(line 24; a parse failure is `json.JSONDecodeError`) and the nested path is
extracted (line 25). -/
def handleResponse (resp : Except PyErr String) : Except PyErr PyVal :=
  match resp with
  | .error e => .error e
  | .ok body =>
    match loads body with
    | Option.none => .error .jsonDecodeError
    | some r => extractPath r

/-- `lambda_handler(event, context)` of `src/lambda/lambda.py`.

* Line 12: `print("Received event: " + json.dumps(event, indent=2))` — if
  the event is not JSON-serializable, `json.dumps` raises `TypeError`
  while the argument of `print` is being computed, so nothing is printed,
  nothing further runs, and no call is made.
* Line 14: `data = json.loads(json.dumps(event))` — a serialize/parse
  round trip used as a deep copy.  On values `json.dumps` accepts here
  (which is established by line 12 having succeeded; `PyVal` dicts carry
  string keys, as JSON events do) the round trip returns an equal value,
  so it is modelled as the identity.
* Line 15: `data['data']` — `getItem`.
* Line 16: `np.array(data, dtype=np.float32)` — `npFloat32List`.
* Line 18: `payload = json.dumps({'inputs_input': data.tolist()})`.
* Lines 20–22: the call, with `ContentType='application/json'`; its
  `Invocation` is recorded whether or not the service succeeds.
* Lines 24–27: `handleResponse`, and the extracted value is returned. -/
def lambda_handler (endpoint : String) (svc : Invocation → Except PyErr String)
    (event : PyVal) : TraceResult :=
  match dumpsIndent2 event with
  | Option.none => ⟨[], [], .error .typeError⟩
  | some s =>
    let logs := ["Received event: " ++ s]
    let d := event
    match getItem d "data" with
    | .error e => ⟨logs, [], .error e⟩
    | .ok dv =>
      match npFloat32List dv with
      | Option.none => ⟨logs, [], .error .valueError⟩
      | some fs =>
        match dumps (.dict [("inputs_input", .list (fs.map PyVal.float))]) with
        | Option.none => ⟨logs, [], .error .typeError⟩
        | some payload =>
          let inv : Invocation := ⟨endpoint, "application/json", payload⟩
          ⟨logs, [inv], handleResponse (svc inv)⟩

/-! ### Module initialization and the process lifetime

Line 8 of the source, `ENDPOINT_NAME = os.environ['ENDPOINT_NAME']`, runs
once when the module is imported — before the framework can deliver any
event — and raises `KeyError` if the variable is unset.  A process is
modelled as that initialization followed by a sequence of handler
invocations, all closed over the one value read. -/

/-- First-match lookup in the process environment. -/
def lookupEnv (env : List (String × String)) (k : String) : Option String :=
  match env with
  | [] => Option.none
  | (k2, v) :: rest => if k2 = k then some v else lookupEnv rest k

/-- Line 8: `ENDPOINT_NAME = os.environ['ENDPOINT_NAME']`, the one read of
the environment in the module, performed at import time. -/
def moduleInit (env : List (String × String)) : Except PyErr String :=
  match lookupEnv env "ENDPOINT_NAME" with
  | some v => .ok v
  | Option.none => .error (.keyError "ENDPOINT_NAME")

/-- A process lifetime: module import, then each event handled in turn with
the endpoint name captured at import.  If import fails no event is ever
processed. -/
def processRun (env : List (String × String))
    (svc : Invocation → Except PyErr String) (events : List PyVal) :
    Except PyErr (List TraceResult) :=
  match moduleInit env with
  | .error e => .error e
  | .ok ep => .ok (events.map (lambda_handler ep svc))

/-! ### Concrete fixtures used by the claims -/

/-- The stub response body of the spec's first testable property:
`{"outputs": {"activation_5": {"floatVal": [0.9, 0.1]}}}`. -/
def stubEchoBody : String :=
  "\x7b\"outputs\": \x7b\"activation_5\": \x7b\"floatVal\": [0.9, 0.1]\x7d\x7d\x7d"

/-- A deterministic stub inference service that always answers
`stubEchoBody`. -/
def stubEcho : Invocation → Except PyErr String := fun _ => .ok stubEchoBody

/-- The event `{"data": [1.0, 2.0, 3.0]}`. -/
def event123 : PyVal :=
  .dict [("data", .list [.float (.finite 1), .float (.finite 2), .float (.finite 3)])]

/-- The event `{"data": [1.0, 2.0]}`. -/
def event12 : PyVal :=
  .dict [("data", .list [.float (.finite 1), .float (.finite 2)])]

/-! ### Sanity checks of the embedding against known values -/

example : roundF32 (11 / 10) = .finite (9227469 / 8388608) := by decide

example : roundF32 16777217 = .finite 16777216 := by decide

example : roundF32 16777219 = .finite 16777220 := by decide

example : roundF32 (2 ^ 130) = .inf false := by decide

example : roundF32 (-(2 : ℚ) ^ (-150 : ℤ)) = .finite 0 := by decide

example : dumps event12 = some "\x7b\"data\": [1.0, 2.0]\x7d" := by decide

example :
    dumpsIndent2 event12 =
      some "\x7b\n  \"data\": [\n    1.0,\n    2.0\n  ]\n\x7d" := by decide

example :
    loads "[1, -2.5e2, \"a\", true, null]" =
      some (.list [.int 1, .float (.finite (-250)), .str "a", .bool true, .null]) := rfl

/-! ### The payload always serializes: helper lemmas -/

/-- Rendering a list of floats never fails and is the elementwise float
serialization. -/
theorem dumpL_float_map (ind : Option ℕ) (fs : List PyFloat) :
    dumpL ind (fs.map PyVal.float) = some (fs.map printPyFloat) := by
  induction fs with
  | nil => simp [dumpL]
  | cons f fs ih => simp [dumpL, dumpV, ih]

/-- The text of the outbound payload for the float list `fs`:
`{"inputs_input": [f₀, f₁, …]}` with Python's default separators. -/
def payloadText (fs : List PyFloat) : String :=
  String.mk [lcurly] ++
      (quoteJson "inputs_input" ++ ": " ++
        ("[" ++ joinSep ", " (fs.map printPyFloat) ++ "]")) ++
    String.mk [rcurly]

/-- Line 18 of the source never raises: the dict
`{'inputs_input': data.tolist()}` contains only floats inside one list
under one string key, and `json.dumps` renders it as `payloadText`. -/
theorem dumps_payload_eq (fs : List PyFloat) :
    dumps (.dict [("inputs_input", .list (fs.map PyVal.float))]) =
      some (payloadText fs) := by
  simp [dumps, dumpV, dumpD, dumpL_float_map, childInd, wrapItems, joinSep,
    payloadText]

/-- Inversion of one `npMap` step. -/
theorem npMap_cons {x : PyVal} {xs : List PyVal} {fs : List PyFloat}
    (h : npMap (x :: xs) = some fs) :
    ∃ f fs2, pyF32 x = some f ∧ npMap xs = some fs2 ∧ fs = f :: fs2 := by
  cases hx : pyF32 x <;> cases hxs : npMap xs <;> simp [npMap, hx, hxs] at h
  exact ⟨_, _, rfl, rfl, h.symm⟩

/-- What `npMap xs = some fs` says elementwise: the output has the length
of the input and position `i` of the output is the float32 coercion of
position `i` of the input. -/
theorem npMap_spec :
    ∀ (xs : List PyVal) (fs : List PyFloat), npMap xs = some fs →
      fs.length = xs.length ∧
        ∀ i (hi : i < xs.length) (hj : i < fs.length),
          pyF32 (xs.get ⟨i, hi⟩) = some (fs.get ⟨i, hj⟩)
  | [], fs, h => by
    simp [npMap] at h
    subst h
    exact ⟨rfl, fun i hi _ => absurd hi (by simp)⟩
  | x :: xs, fs, h => by
    obtain ⟨f, fs2, hx, hxs, rfl⟩ := npMap_cons h
    obtain ⟨hlen, hget⟩ := npMap_spec xs fs2 hxs
    refine ⟨by simp [hlen], ?_⟩
    intro i hi hj
    cases i with
    | zero => simpa using hx
    | succ n => simpa using hget n (by simpa using hi) (by simpa using hj)

/-- Once the event is serializable, `data` is present and numerically
coercible, the run is fully determined up to the service's answer: one log
line, then exactly one invocation of the configured endpoint with content
type `application/json` and body `payloadText fs`, whose outcome is handed
to the response-extraction code. -/
theorem handler_call_shape (ep : String)
    (svc : Invocation → Except PyErr String) (event : PyVal) (s : String)
    (dv : PyVal) (fs : List PyFloat) (hser : dumpsIndent2 event = some s)
    (hdata : getItem event "data" = .ok dv)
    (hnp : npFloat32List dv = some fs) :
    lambda_handler ep svc event =
      ⟨["Received event: " ++ s], [⟨ep, "application/json", payloadText fs⟩],
        handleResponse (svc ⟨ep, "application/json", payloadText fs⟩)⟩ := by
  simp [lambda_handler, hser, hdata, hnp, dumps_payload_eq]

/-! ### The claims -/

/-- C1: For the well-formed event `{"data": [1.0, 2.0, 3.0]}` and a stub
inference service whose response body is
`{"outputs": {"activation_5": {"floatVal": [0.9, 0.1]}}}`, the handler
returns `[0.9, 0.1]` (the two floats denoting exactly 9/10 and 1/10 as the
stub's body spells them), whatever the configured endpoint name is. -/
theorem handler_returns_stub_floatVal (ep : String) :
    (lambda_handler ep stubEcho event123).result =
      .ok (.list [.float (.finite (9 / 10)), .float (.finite (1 / 10))]) := rfl

/-- Witness for C1 at the endpoint name `"my-endpoint"`. -/
theorem handler_returns_stub_floatVal_witness :
    (lambda_handler "my-endpoint" stubEcho event123).result =
      .ok (.list [.float (.finite (9 / 10)), .float (.finite (1 / 10))]) :=
  handler_returns_stub_floatVal "my-endpoint"

/-- C2: For every (JSON-serializable, as Lambda events are) event mapping
with no key `data`, the handler raises `KeyError` at line 15 and makes no
outbound call: the whole trace is the one diagnostic log line, an empty
call list, and the `KeyError`. -/
theorem handler_missing_data_fails_before_call (ep : String)
    (svc : Invocation → Except PyErr String) (kvs : List (String × PyVal))
    (s : String) (hser : dumpsIndent2 (.dict kvs) = some s)
    (hnd : lookupAssoc kvs "data" = Option.none) :
    lambda_handler ep svc (.dict kvs) =
      ⟨["Received event: " ++ s], [], .error (.keyError "data")⟩ := by
  simp [lambda_handler, hser, getItem, hnd]

/-- Witness for C2 at the event `{"x": 1}`. -/
theorem handler_missing_data_fails_before_call_witness :
    lambda_handler "my-endpoint" stubEcho (.dict [("x", .int 1)]) =
      ⟨["Received event: \x7b\n  \"x\": 1\n\x7d"], [], .error (.keyError "data")⟩ :=
  handler_missing_data_fails_before_call "my-endpoint" stubEcho
    [("x", .int 1)] "\x7b\n  \"x\": 1\n\x7d" rfl rfl

/-- C7: The handler is deterministic: two invocations against the same
(deterministic) service with equal events produce equal traces — equal
output, equal logs, equal calls.  The source keeps no mutable state between
invocations (the endpoint name and client are created once and never
written), so the handler is a pure function of its inputs. -/
theorem handler_deterministic (ep : String)
    (svc : Invocation → Except PyErr String) (e1 e2 : PyVal) (h : e1 = e2) :
    lambda_handler ep svc e1 = lambda_handler ep svc e2 := by rw [h]

/-- Witness for C7: two invocations on `{"data": [1.0, 2.0, 3.0]}`. -/
theorem handler_deterministic_witness :
    lambda_handler "my-endpoint" stubEcho event123 =
      lambda_handler "my-endpoint" stubEcho event123 :=
  handler_deterministic "my-endpoint" stubEcho event123 event123 rfl

/-- C10: For every event that `json.dumps` rejects (`TypeError`), the
handler dies computing the argument of the `print` on line 12: no log line
is emitted, the `data` key is never looked up, and no outbound call is
made — even when a perfectly numeric `data` field is present.
JSON-serializability of the whole event is therefore a precondition of the
handler. -/
theorem handler_unserializable_fails_at_log (ep : String)
    (svc : Invocation → Except PyErr String) (event : PyVal)
    (h : dumpsIndent2 event = Option.none) :
    lambda_handler ep svc event = ⟨[], [], .error .typeError⟩ := by
  simp [lambda_handler, h]

/-- Witness for C10: an event carrying a valid `data` list alongside a
non-serializable object still fails before anything is logged or sent. -/
theorem handler_unserializable_fails_at_log_witness :
    lambda_handler "my-endpoint" stubEcho
        (.dict [("data", .list [.float (.finite 1)]), ("extra", .obj 0)]) =
      ⟨[], [], .error .typeError⟩ :=
  handler_unserializable_fails_at_log "my-endpoint" stubEcho
    (.dict [("data", .list [.float (.finite 1)]), ("extra", .obj 0)]) rfl

/-- C4: For the input event `{"data": [1.0, 2.0]}`, the body of the
outbound request is exactly the text serialization of
`{"inputs_input": [1.0, 2.0]}` — the 28-character string
`{"inputs_input": [1.0, 2.0]}` that `json.dumps` produces for that mapping
— and the content type is `application/json`, whatever the endpoint and the
service do. -/
theorem handler_payload_exact (ep : String)
    (svc : Invocation → Except PyErr String) :
    (lambda_handler ep svc event12).calls =
      [⟨ep, "application/json", "\x7b\"inputs_input\": [1.0, 2.0]\x7d"⟩] ∧
    dumps (.dict [("inputs_input", .list [.float (.finite 1), .float (.finite 2)])]) =
      some "\x7b\"inputs_input\": [1.0, 2.0]\x7d" :=
  ⟨rfl, rfl⟩

/-- Witness for C4 at a concrete endpoint and service. -/
theorem handler_payload_exact_witness :
    (lambda_handler "my-endpoint" stubEcho event12).calls =
      [⟨"my-endpoint", "application/json", "\x7b\"inputs_input\": [1.0, 2.0]\x7d"⟩] :=
  (handler_payload_exact "my-endpoint" stubEcho).1

/-- C5: For every serializable event whose `data` is a list that NumPy
accepts, the sequence placed under `inputs_input` in the outbound payload
is the elementwise float32 coercion (`pyF32`, IEEE binary32
round-to-nearest-even) of the input sequence, with the same length and in
the same order: the one call carries `payloadText fs` and `fs` is the
positionwise image of `xs`. -/
theorem handler_payload_float32_map (ep : String)
    (svc : Invocation → Except PyErr String) (event : PyVal) (s : String)
    (xs : List PyVal) (fs : List PyFloat)
    (hser : dumpsIndent2 event = some s)
    (hdata : getItem event "data" = .ok (.list xs))
    (hnp : npMap xs = some fs) :
    (lambda_handler ep svc event).calls =
      [⟨ep, "application/json", payloadText fs⟩] ∧
    fs.length = xs.length ∧
    ∀ i (hi : i < xs.length) (hj : i < fs.length),
      pyF32 (xs.get ⟨i, hi⟩) = some (fs.get ⟨i, hj⟩) := by
  obtain ⟨hlen, hget⟩ := npMap_spec xs fs hnp
  refine ⟨?_, hlen, hget⟩
  rw [handler_call_shape ep svc event s (.list xs) fs hser hdata
    (by simpa [npFloat32List] using hnp)]

/-- The event `{"data": [1.1, 2, true]}`: a float, an int and a bool, all
of which NumPy coerces to float32. -/
def eventMix : PyVal :=
  .dict [("data", .list [.float (.finite (11 / 10)), .int 2, .bool true])]

/-- Witness for C5 on `{"data": [1.1, 2, true]}`: the payload carries the
float32 values `[1.100000023841858, 2.0, 1.0]` (note `1.1` rounds to the
binary32 value `9227469/2^23`), the length is preserved, and position 0 is
the coercion of position 0. -/
theorem handler_payload_float32_map_witness :
    (lambda_handler "my-endpoint" stubEcho eventMix).calls =
      [⟨"my-endpoint", "application/json",
        payloadText [.finite (9227469 / 8388608), .finite 2, .finite 1]⟩] ∧
    ([PyFloat.finite (9227469 / 8388608), .finite 2, .finite 1] : List PyFloat).length =
      ([PyVal.float (.finite (11 / 10)), .int 2, .bool true] : List PyVal).length ∧
    pyF32 (([PyVal.float (.finite (11 / 10)), .int 2, .bool true] : List PyVal).get
        ⟨0, by decide⟩) =
      some (([PyFloat.finite (9227469 / 8388608), .finite 2, .finite 1] :
        List PyFloat).get ⟨0, by decide⟩) :=
  have h := handler_payload_float32_map "my-endpoint" stubEcho eventMix
    "\x7b\n  \"data\": [\n    1.1,\n    2,\n    true\n  ]\n\x7d"
    [.float (.finite (11 / 10)), .int 2, .bool true]
    [.finite (9227469 / 8388608), .finite 2, .finite 1]
    (by decide) rfl (by decide)
  ⟨h.1, h.2.1, h.2.2 0 (by decide) (by decide)⟩

/-- C3's stub: a service answering `{"outputs": {}}`, whose parsed body
lacks the nested path at `activation_5`. -/
def stubMissingPath : Invocation → Except PyErr String :=
  fun _ => .ok "\x7b\"outputs\": \x7b\x7d\x7d"

/-- C3: For every serializable event that reaches the call and every
service response whose parsed body lacks the nested
`outputs.activation_5.floatVal` path (failing at a dict level, i.e. with a
`KeyError`), the handler fails with that `KeyError` *after* the outbound
call: the call was made exactly once, and the diagnostic line had been
logged. -/
theorem handler_missing_path_fails_after_call (ep s body : String)
    (svc : Invocation → Except PyErr String) (event dv : PyVal)
    (fs : List PyFloat) (r : PyVal) (k : String)
    (hser : dumpsIndent2 event = some s)
    (hdata : getItem event "data" = .ok dv)
    (hnp : npFloat32List dv = some fs)
    (hsvc : ∀ i, svc i = .ok body)
    (hparse : loads body = some r)
    (hmiss : extractPath r = .error (.keyError k)) :
    (lambda_handler ep svc event).calls.length = 1 ∧
      (lambda_handler ep svc event).result = .error (.keyError k) ∧
      (lambda_handler ep svc event).logs = ["Received event: " ++ s] := by
  rw [handler_call_shape ep svc event s dv fs hser hdata hnp]
  exact ⟨rfl, by simp [handleResponse, hsvc, hparse, hmiss], rfl⟩

/-- Witness for C3: `{"data": [1.0, 2.0, 3.0]}` against the
`{"outputs": {}}` service fails with `KeyError 'activation_5'` after one
call. -/
theorem handler_missing_path_fails_after_call_witness :
    (lambda_handler "my-endpoint" stubMissingPath event123).calls.length = 1 ∧
      (lambda_handler "my-endpoint" stubMissingPath event123).result =
        .error (.keyError "activation_5") ∧
      (lambda_handler "my-endpoint" stubMissingPath event123).logs =
        ["Received event: " ++
          "\x7b\n  \"data\": [\n    1.0,\n    2.0,\n    3.0\n  ]\n\x7d"] :=
  handler_missing_path_fails_after_call "my-endpoint"
    "\x7b\n  \"data\": [\n    1.0,\n    2.0,\n    3.0\n  ]\n\x7d"
    "\x7b\"outputs\": \x7b\x7d\x7d" stubMissingPath event123
    (.list [.float (.finite 1), .float (.finite 2), .float (.finite 3)])
    [.finite 1, .finite 2, .finite 3] (.dict [("outputs", .dict [])])
    "activation_5" (by decide) rfl (by decide) (fun _ => rfl) rfl rfl

/-- C8 as stated is false: an invocation that fails before the call makes
no outbound call at all.  On the event `{}` (no `data`), the number of
outbound calls is 0, not 1. -/
theorem handler_not_always_one_call :
    (lambda_handler "my-endpoint" stubEcho (.dict [])).calls.length ≠ 1 := by
  decide

/-- C8 (amended): Every invocation that reaches the outbound step — the
event serializes and its `data` coerces to floats — performs exactly one
outbound call (no retries) and emits exactly one diagnostic log line, the
full serialized event with no redaction, before that call. -/
theorem handler_one_call_one_log (ep : String)
    (svc : Invocation → Except PyErr String) (event : PyVal) (s : String)
    (dv : PyVal) (fs : List PyFloat)
    (hser : dumpsIndent2 event = some s)
    (hdata : getItem event "data" = .ok dv)
    (hnp : npFloat32List dv = some fs) :
    (lambda_handler ep svc event).calls.length = 1 ∧
      (lambda_handler ep svc event).logs = ["Received event: " ++ s] := by
  rw [handler_call_shape ep svc event s dv fs hser hdata hnp]
  exact ⟨rfl, rfl⟩

/-- Witness for amended C8 on `{"data": [1.0, 2.0, 3.0]}`. -/
theorem handler_one_call_one_log_witness :
    (lambda_handler "my-endpoint" stubEcho event123).calls.length = 1 ∧
      (lambda_handler "my-endpoint" stubEcho event123).logs =
        ["Received event: " ++
          "\x7b\n  \"data\": [\n    1.0,\n    2.0,\n    3.0\n  ]\n\x7d"] :=
  handler_one_call_one_log "my-endpoint" stubEcho event123
    "\x7b\n  \"data\": [\n    1.0,\n    2.0,\n    3.0\n  ]\n\x7d"
    (.list [.float (.finite 1), .float (.finite 2), .float (.finite 3)])
    [.finite 1, .finite 2, .finite 3] (by decide) rfl (by decide)

/-- C9's stub: a service whose `floatVal` is the string `"hello"`, not a
sequence of numbers. -/
def stubStrVal : Invocation → Except PyErr String :=
  fun _ =>
    .ok "\x7b\"outputs\": \x7b\"activation_5\": \x7b\"floatVal\": \"hello\"\x7d\x7d\x7d"

/-- C9: For every parsed service response containing the nested
`outputs.activation_5.floatVal` path, the handler returns the value found
there verbatim — whatever it is, including values that are not sequences of
numbers: nothing validates it. -/
theorem handler_returns_floatVal_verbatim (ep s body : String)
    (svc : Invocation → Except PyErr String) (event dv : PyVal)
    (fs : List PyFloat) (r v : PyVal)
    (hser : dumpsIndent2 event = some s)
    (hdata : getItem event "data" = .ok dv)
    (hnp : npFloat32List dv = some fs)
    (hsvc : ∀ i, svc i = .ok body)
    (hparse : loads body = some r)
    (hpath : extractPath r = .ok v) :
    (lambda_handler ep svc event).result = .ok v := by
  rw [handler_call_shape ep svc event s dv fs hser hdata hnp]
  simp [handleResponse, hsvc, hparse, hpath]

/-- Witness for C9: a `floatVal` holding the string `"hello"` is returned
unchanged. -/
theorem handler_returns_floatVal_verbatim_witness :
    (lambda_handler "my-endpoint" stubStrVal event123).result =
      .ok (.str "hello") :=
  handler_returns_floatVal_verbatim "my-endpoint"
    "\x7b\n  \"data\": [\n    1.0,\n    2.0,\n    3.0\n  ]\n\x7d"
    "\x7b\"outputs\": \x7b\"activation_5\": \x7b\"floatVal\": \"hello\"\x7d\x7d\x7d"
    stubStrVal event123
    (.list [.float (.finite 1), .float (.finite 2), .float (.finite 3)])
    [.finite 1, .finite 2, .finite 3]
    (.dict [("outputs", .dict [("activation_5", .dict [("floatVal", .str "hello")])])])
    (.str "hello") (by decide) rfl (by decide) (fun _ => rfl) rfl rfl

/-- C6: (i) If `ENDPOINT_NAME` is unset, module import raises
`KeyError 'ENDPOINT_NAME'` and no event is ever processed.  (ii) If it is
set to `v`, every invocation of the process runs with that same captured
`v`.  (iii) The process outcome depends on the environment only through
that single initial read — the environment is never consulted again, so the
configuration is immutable for the process lifetime. -/
theorem endpoint_config_read_once (env : List (String × String))
    (svc : Invocation → Except PyErr String) (events : List PyVal) :
    (lookupEnv env "ENDPOINT_NAME" = Option.none →
      processRun env svc events = .error (.keyError "ENDPOINT_NAME")) ∧
    (∀ v, lookupEnv env "ENDPOINT_NAME" = some v →
      processRun env svc events = .ok (events.map (lambda_handler v svc))) ∧
    (∀ env2, lookupEnv env2 "ENDPOINT_NAME" = lookupEnv env "ENDPOINT_NAME" →
      processRun env2 svc events = processRun env svc events) := by
  refine ⟨fun h => by simp [processRun, moduleInit, h],
    fun v h => by simp [processRun, moduleInit, h],
    fun env2 h => by simp [processRun, moduleInit, h]⟩

/-- Witness for C6: an empty environment fails at import; an environment
binding `ENDPOINT_NAME` runs every event with the bound value. -/
theorem endpoint_config_read_once_witness :
    processRun [] stubEcho [event123] = .error (.keyError "ENDPOINT_NAME") ∧
      processRun [("ENDPOINT_NAME", "my-endpoint")] stubEcho [event123] =
        .ok [lambda_handler "my-endpoint" stubEcho event123] :=
  ⟨(endpoint_config_read_once [] stubEcho [event123]).1 rfl,
   (endpoint_config_read_once [("ENDPOINT_NAME", "my-endpoint")] stubEcho
     [event123]).2.1 "my-endpoint" rfl⟩

end SageLambda
